import Mathlib

/-!
Verification of the koa driver and the Session parameter decorator of the
similie/routing-controllers repository.

The development shallowly embeds the two source files
(`src/cjs/decorator/Session.js`, which concatenates the Session decorator
and the compiled KoaDriver) into Lean: JavaScript values become the
inductive type `Value`, fallible evaluation becomes `Except`, the koa
middleware chain becomes a step-relation-free list interpreter, and the
driver methods `getParamFromRequest`, `handleSuccess`, `handleError`,
`prepareMiddlewares` and the route guard become Lean functions mirroring
the JavaScript control flow branch by branch.
-/

namespace RoutingControllers

/-- A JavaScript value, as far as the driver inspects one: the driver only
distinguishes undefined, null, booleans, numbers, strings, byte arrays
(Uint8Array) and plain objects (field lists). -/
inductive Value where
  | undef : Value
  | null : Value
  | bool (b : Bool) : Value
  | num (n : Int) : Value
  | str (s : String) : Value
  | bytes (bs : List Nat) : Value
  | func (name : String) : Value
  | obj (fields : List (String × Value)) : Value


/-- Field lookup on a JavaScript object: a missing key reads as undefined. -/
def lookupField (fields : List (String × Value)) (key : String) : Value :=
  match fields.find? (fun p => p.1 = key) with
  | some p => p.2
  | none => Value.undef

/-- JavaScript property access `v[key]`: throws a TypeError on undefined and
null, returns the field on an object, and yields undefined on other
primitives (no own properties with these names). -/
def Value.getProp : Value → String → Except String Value
  | Value.undef, _ => Except.error "TypeError: cannot read property of undefined"
  | Value.null, _ => Except.error "TypeError: cannot read property of null"
  | Value.obj fields, key => Except.ok (lookupField fields key)
  | _, _ => Except.ok Value.undef

/-- JavaScript truthiness. -/
def Value.truthy : Value → Bool
  | Value.undef => false
  | Value.null => false
  | Value.bool b => b
  | Value.num n => n != 0
  | Value.str s => s != ""
  | Value.bytes _ => true
  | Value.func _ => true
  | Value.obj _ => true

/-- The `instanceof Function` test the translator applies to configured
result codes. -/
def Value.isFunction : Value → Bool
  | Value.func _ => true
  | _ => false

/-- Splits a character list on a separator, keeping empty groups. -/
def splitListOn (sep : Char) : List Char → List (List Char)
  | [] => [[]]
  | c :: rest =>
      let r := splitListOn sep rest
      if c = sep then [] :: r
      else match r with
        | [] => [[c]]
        | g :: gs => (c :: g) :: gs

/-- Drops leading spaces of a character list. -/
def dropSpaces : List Char → List Char
  | ' ' :: rest => dropSpaces rest
  | l => l

/-- Splits a character list at its first equals sign, when there is one. -/
def splitFirstEq : List Char → Option (List Char × List Char)
  | [] => none
  | '=' :: rest => some ([], rest)
  | c :: rest =>
      match splitFirstEq rest with
      | some (k, v) => some (c :: k, v)
      | none => none

/-- Modelled from the spec: the third-party cookie library (an external
collaborator, not under src/) parses the raw cookie header string into a
name/value map on demand; it accepts only a string argument. Here the
header splits on semicolons, each piece losing its leading spaces and
splitting at its first equals sign into a name/value pair. -/
def cookieParse (raw : String) : List (String × Value) :=
  (splitListOn ';' raw.toList).filterMap (fun piece =>
    match splitFirstEq (dropSpaces piece) with
    | some (k, v) => some (String.mk k, Value.str (String.mk v))
    | none => none)

/-- A parameter descriptor as the driver reads it: the discriminating kind
string and the optional name (the empty string standing for an absent,
hence falsy, name). -/
structure ParamDescriptor where
  type : String
  name : String


/-- The koa request object, with the fields the driver touches. -/
structure RequestObj where
  body : Value
  headers : Value
  file : Value
  files : Value


/-- The koa context, with the fields the driver touches. `request` is the
same request object the action options carry. -/
structure CtxObj where
  params : Value
  session : Value
  state : Value
  query : Value
  headers : Value
  request : RequestObj


/-- The normalized action options bundle `{ request, response, context, next }`
as far as parameter extraction reads it. -/
structure ActionOptions where
  context : CtxObj
  request : RequestObj


/-- Embedding of `KoaDriver.getParamFromRequest` (KoaDriver.js lines
172-214): a switch on the descriptor kind string reading a fixed location
of the request context; the cookie cases short-circuit on an absent
cookie header; a kind matched by no case falls out of the switch, which in
JavaScript is an implicit `return undefined`. -/
def getParamFromRequest (actionOptions : ActionOptions) (param : ParamDescriptor) :
    Except String Value :=
  let context := actionOptions.context
  let request := actionOptions.request
  match param.type with
  | "body" => Except.ok request.body
  | "body-param" => request.body.getProp param.name
  | "param" => context.params.getProp param.name
  | "params" => Except.ok context.params
  | "session" => Except.ok context.session
  | "session-param" => context.session.getProp param.name
  | "state" =>
      if param.name != "" then context.state.getProp param.name
      else Except.ok context.state
  | "query" => context.query.getProp param.name
  | "queries" => Except.ok context.query
  | "file" => Except.ok context.request.file
  | "files" => Except.ok context.request.files
  | "header" => context.headers.getProp param.name.toLower
  | "headers" => Except.ok request.headers
  | "cookie" =>
      match context.headers.getProp "cookie" with
      | Except.error e => Except.error e
      | Except.ok c =>
        if !c.truthy then
          Except.ok Value.undef
        else
          match c with
          | Value.str raw => Except.ok (lookupField (cookieParse raw) param.name)
          | _ => Except.error "TypeError: argument str must be a string"
  | "cookies" =>
      match request.headers.getProp "cookie" with
      | Except.error e => Except.error e
      | Except.ok c =>
        if !c.truthy then
          Except.ok (Value.obj [])
        else
          match c with
          | Value.str raw => Except.ok (Value.obj (cookieParse raw))
          | _ => Except.error "TypeError: argument str must be a string"
  | _ => Except.ok Value.undef

/-- The list of descriptor kind strings the switch recognizes. -/
def recognizedKinds : List String :=
  ["body", "body-param", "param", "params", "session", "session-param",
   "state", "query", "queries", "file", "files", "header", "headers",
   "cookie", "cookies"]

/-- Builds the action options of a request whose extraction-relevant
containers are plain objects over the given field lists, as the koa body
parser, router, session middleware and header handling provide them at
request time (the file and files fields of the options request object are
unused by extraction, which reads them off the context request). -/
def mkOptions (cp cs st q ch rb rh : List (String × Value)) (creq : RequestObj) :
    ActionOptions :=
  { context := { params := Value.obj cp, session := Value.obj cs,
                 state := Value.obj st, query := Value.obj q,
                 headers := Value.obj ch, request := creq }
    request := { body := Value.obj rb, headers := Value.obj rh,
                 file := Value.undef, files := Value.undef } }

/-! ## The per-route middleware chain and the route guard -/

/-- One middleware of a registered koa route stack, by behavioral role.
`guard` is the route guard of KoaDriver.js lines 153-158 and is the only
middleware reading or writing the routingControllersStarted flag;
`actionHandler` is the routeHandler invoking executeCallback for the
action and is the only middleware running an action; `callsNext` is any
other middleware that finishes its work and invokes its continuation once
(the prepared user middlewares and the multer middlewares on their
success path); `stops` is any other middleware that returns without
invoking its continuation. -/
inductive ChainMiddleware where
  | guard : ChainMiddleware
  | callsNext (id : Nat) : ChainMiddleware
  | stops (id : Nat) : ChainMiddleware
  | actionHandler (id : Nat) : ChainMiddleware
deriving DecidableEq, Repr

/-- The per-request observable state of the dispatch: the
request.routingControllersStarted flag, how many times the guard has
written it, and which actions have executed, in order. -/
structure DispatchState where
  routingControllersStarted : Bool
  flagWrites : Nat
  executedActions : List Nat
deriving DecidableEq, Repr

/-- A fresh request: flag clear, no writes, no action executed. -/
def initialDispatchState : DispatchState :=
  { routingControllersStarted := false, flagWrites := 0, executedActions := [] }

/-- Runs a flattened koa middleware list: each middleware decides whether
the rest of the list, its next continuation, runs. The guard case embeds
routeGuard (lines 153-158): with the flag still clear it sets the flag,
records the write and invokes next; with the flag already set it returns
at once, leaving the state untouched and never invoking next. -/
def runChain : List ChainMiddleware → DispatchState → DispatchState
  | [], s => s
  | ChainMiddleware.guard :: rest, s =>
      if s.routingControllersStarted then s
      else runChain rest { s with routingControllersStarted := true,
                                  flagWrites := s.flagWrites + 1 }
  | ChainMiddleware.callsNext _ :: rest, s => runChain rest s
  | ChainMiddleware.stops _ :: _, s => s
  | ChainMiddleware.actionHandler i :: rest, s =>
      runChain rest { s with executedActions := s.executedActions ++ [i] }

/-- A route as registerAction registers it: the action it dispatches to
and the middlewares placed around the route handler (before = the
prepared before-middlewares followed by the default authorization and
multer middlewares; after = the prepared after-middlewares). -/
structure RegisteredRoute where
  actionId : Nat
  beforeMiddlewares : List ChainMiddleware
  afterMiddlewares : List ChainMiddleware
deriving DecidableEq, Repr

/-- The middleware stack registerAction hands to the router for one route
(line 160): the route guard first, then the before and default
middlewares, the route handler, then the after middlewares. -/
def routeStack (r : RegisteredRoute) : List ChainMiddleware :=
  ChainMiddleware.guard ::
    (r.beforeMiddlewares ++ ChainMiddleware.actionHandler r.actionId :: r.afterMiddlewares)

/-- koa-router dispatch when several registered routes match one request:
the matched stacks compose in registration order, the end of one stack
continuing into the next one. -/
def dispatchMatched (rs : List RegisteredRoute) : DispatchState :=
  runChain ((rs.map routeStack).flatten) initialDispatchState

/-- A middleware role other than the guard and the action handler. -/
def isPlainMiddleware : ChainMiddleware → Bool
  | ChainMiddleware.callsNext _ => true
  | ChainMiddleware.stops _ => true
  | _ => false

/-! ## The authorization middleware -/

/-- The errors the driver creates in registerAction. -/
inductive DriverError where
  | authorizationCheckerNotDefined : DriverError
  | authorizationRequired : DriverError
  | accessDenied : DriverError
  | checkerFailure (msg : String) : DriverError
deriving DecidableEq, Repr

/-- What one run of the authorization middleware does with the request:
throw out of the middleware (escaping this layer entirely), route an
error to this.handleError, or invoke next so the chain continues toward
the action handler. -/
inductive AuthOutcome where
  | thrown (e : DriverError) : AuthOutcome
  | routedToErrorHandler (e : DriverError) : AuthOutcome
  | proceeded : AuthOutcome
deriving DecidableEq, Repr

/-- Embedding of the authorization middleware registerAction pushes for an
action with isAuthorizedUsed (lines 88-120). The checker is read per
request: absent, the middleware throws AuthorizationCheckerNotDefinedError
before the try block, so the error escapes rather than being routed. A
checker result (the promise path resolves to the same handling as the
synchronous path, and a rejection lands in the same catch as a throw) of
false selects AuthorizationRequiredError on an empty required-roles list
and AccessDeniedError otherwise, routing it to handleError instead of
calling next; a true result calls next. -/
def authorizationMiddleware (checker : Option (List String → Except String Bool))
    (authorizedRoles : List String) : AuthOutcome :=
  match checker with
  | none => AuthOutcome.thrown DriverError.authorizationCheckerNotDefined
  | some check =>
    match check authorizedRoles with
    | Except.error msg => AuthOutcome.routedToErrorHandler (DriverError.checkerFailure msg)
    | Except.ok result =>
      if !result then
        AuthOutcome.routedToErrorHandler
          (if authorizedRoles.length = 0 then DriverError.authorizationRequired
           else DriverError.accessDenied)
      else AuthOutcome.proceeded

/-! ## The result and error translators -/

/-- An error value as handleError inspects it: an HttpError carrying an
http status code (0 standing for a falsy, missing code) or any other
thrown value. -/
inductive JsError where
  | httpError (httpCode : Nat) (message : String) : JsError
  | other (message : String) : JsError
deriving DecidableEq, Repr

/-- The response body, distinguishing the shapes the two translators
assign: untouched, the null body, a plain result value, binary data
copied from a typed array, and the two error renderings. jsonErrorOf and
textErrorOf are modelled from the spec: BaseDriver.processJsonError and
BaseDriver.processTextError (not under src/) render the error as a JSON
or text body; they are kept abstract here. -/
inductive ResponseBody where
  | unset : ResponseBody
  | nullBody : ResponseBody
  | value (v : Value) : ResponseBody
  | binary (bs : List Nat) : ResponseBody
  | jsonErrorOf (e : JsError) : ResponseBody
  | textErrorOf (e : JsError) : ResponseBody

def ResponseBody.isNullBody : ResponseBody → Bool
  | ResponseBody.nullBody => true
  | _ => false

/-- The response object as the translators mutate it: headers set so far
(in call order of response.set), the body, and the status (a Value, since
the JavaScript assignments copy whatever the configured code holds). -/
structure ResponseState where
  headersSet : List (String × String)
  body : ResponseBody
  status : Value

/-- The forEach over action.headers calling response.set. -/
def applyActionHeaders (resp : ResponseState) (hs : List (String × String)) :
    ResponseState :=
  { resp with headersSet := resp.headersSet ++ hs }

/-- The action metadata fields the translators read. redirect and
renderedTemplate are the configured string targets or undefined; the
result codes are numbers, error classes (Functions) or undefined;
successHttpCode is a number or undefined. -/
structure ActionResponseMeta where
  headers : List (String × String)
  isJsonTyped : Bool
  redirect : Value
  renderedTemplate : Value
  undefinedResultCode : Value
  nullResultCode : Value
  successHttpCode : Value

/-- Outcome of handleError: resolve after mutating the response, or reject
with the error, the response left as it was. -/
inductive HandleErrorOutcome where
  | resolved (resp : ResponseState) : HandleErrorOutcome
  | rejected (e : JsError) (resp : ResponseState) : HandleErrorOutcome

/-- Embedding of KoaDriver.handleError (lines 289-316). With default error
handling enabled: apply the action headers when an action is known, render
the body as JSON when an action is known and json-typed and as text
otherwise, set the status from the http code carried by an HttpError when
truthy and to 500 otherwise, and resolve. Disabled: reject with the error,
the response untouched. -/
def handleError (isDefaultErrorHandlingEnabled : Bool) (error : JsError)
    (action : Option ActionResponseMeta) (resp : ResponseState) : HandleErrorOutcome :=
  if isDefaultErrorHandlingEnabled then
    let r1 := match action with
      | some a => applyActionHeaders resp a.headers
      | none => resp
    let r2 := if (match action with | some a => a.isJsonTyped | none => false) then
        { r1 with body := ResponseBody.jsonErrorOf error }
      else
        { r1 with body := ResponseBody.textErrorOf error }
    let r3 := match error with
      | JsError.httpError code _ =>
          if code ≠ 0 then { r2 with status := Value.num code }
          else { r2 with status := Value.num 500 }
      | JsError.other _ => { r2 with status := Value.num 500 }
    HandleErrorOutcome.resolved r3
  else
    HandleErrorOutcome.rejected error resp

/-- What an action handler hands to handleSuccess: the response object
itself, the context object itself, or an ordinary value. -/
inductive ActionResult where
  | respObject : ActionResult
  | ctxObject : ActionResult
  | value (v : Value) : ActionResult

/-- Modelled from the spec: BaseDriver.transformResult (not under src/)
applies the optional user-supplied class transform to object results and
leaves every other result, undefined and null in particular, unchanged. -/
def transformResult (classTransformer : Option (List (String × Value) → List (String × Value))) :
    Value → Value
  | Value.obj fs =>
      match classTransformer with
      | some t => Value.obj (t fs)
      | none => Value.obj fs
  | v => v

/-- Modelled from the spec: the external template-url package interpolates
result fields into the redirect URL template; the interpolated URL is kept
abstract and identified with its template here, no claim inspecting it. -/
def templateUrlRender (template : Value) (result : Value) : String :=
  match template, result with
  | Value.str t, _ => t
  | _, _ => ""

/-- What handleSuccess throws: NotFoundError, or an instance of the
configured result-code error class. -/
inductive ThrownResult where
  | notFound : ThrownResult
  | customCode (className : String) : ThrownResult
deriving DecidableEq, Repr

/-- Outcome of handleSuccess: a throw (escaping to the caller, which routes
it to handleError), or next invoked on the final response, together with
the redirect target when response.redirect was called. -/
inductive SuccessOutcome where
  | thrown (e : ThrownResult) : SuccessOutcome
  | nextCalled (resp : ResponseState) (redirectedTo : Option String) : SuccessOutcome

/-- Embedding of KoaDriver.handleSuccess (lines 218-285), with the render
branch noted broken in the source (it only registers an app-level
middleware) leaving the response untouched. The body phase follows the
if-chain of lines 225-266, the status phase lines 268-279, the header
phase lines 281-283; next is invoked at the end (line 284) unless the
result was the response or context object (line 221) or a throw occurred. -/
def handleSuccess (classTransformer : Option (List (String × Value) → List (String × Value)))
    (a : ActionResponseMeta) (result0 : ActionResult) (resp : ResponseState) :
    SuccessOutcome :=
  match result0 with
  | ActionResult.respObject => SuccessOutcome.nextCalled resp none
  | ActionResult.ctxObject => SuccessOutcome.nextCalled resp none
  | ActionResult.value v0 =>
    let result := transformResult classTransformer v0
    let phase1 : Except ThrownResult (ResponseState × Option String) :=
      if a.redirect.truthy then
        match result with
        | Value.str s => Except.ok (resp, some s)
        | Value.obj fs => Except.ok (resp, some (templateUrlRender a.redirect (Value.obj fs)))
        | Value.bytes bs => Except.ok (resp, some (templateUrlRender a.redirect (Value.bytes bs)))
        | Value.func nm => Except.ok (resp, some (templateUrlRender a.redirect (Value.func nm)))
        | _ => Except.ok (resp, some (match a.redirect with
                                      | Value.str t => t
                                      | _ => ""))
      else if a.renderedTemplate.truthy then
        Except.ok (resp, none)
      else
        match result with
        | Value.undef =>
            if a.undefinedResultCode.isFunction then
              Except.error (ThrownResult.customCode (match a.undefinedResultCode with
                                                     | Value.func nm => nm
                                                     | _ => ""))
            else if !a.undefinedResultCode.truthy then
              Except.error ThrownResult.notFound
            else
              Except.ok (resp, none)
        | Value.null =>
            if a.nullResultCode.isFunction then
              Except.error (ThrownResult.customCode (match a.nullResultCode with
                                                     | Value.func nm => nm
                                                     | _ => ""))
            else
              Except.ok ({ resp with body := ResponseBody.nullBody }, none)
        | Value.bytes bs => Except.ok ({ resp with body := ResponseBody.binary bs }, none)
        | v => Except.ok ({ resp with body := ResponseBody.value v }, none)
    match phase1 with
    | Except.error e => SuccessOutcome.thrown e
    | Except.ok (r1, red) =>
      let isUndef := match result with | Value.undef => true | _ => false
      let isNull := match result with | Value.null => true | _ => false
      let r2 :=
        if isUndef && a.undefinedResultCode.truthy then
          { r1 with status := a.undefinedResultCode }
        else if isNull && a.nullResultCode.truthy then
          { r1 with status := a.nullResultCode }
        else if a.successHttpCode.truthy then
          { r1 with status := a.successHttpCode }
        else if r1.body.isNullBody then
          { r1 with status := Value.num 204 }
        else r1
      SuccessOutcome.nextCalled (applyActionHeaders r2 a.headers) red

/-! ## The Session parameter decorator -/

/-- The options object optionally passed to the Session decorator, each
field an Option with none standing for an absent or undefined property. -/
structure SessionDecoratorOptions where
  required : Option Bool
  transform : Option Value
  validate : Option Bool

/-- The parameter metadata record the decorator pushes into the metadata
args storage (the object reference is omitted, carrying no logic). -/
structure ParamMetadataArgs where
  type : String
  method : String
  index : Nat
  parse : Bool
  required : Bool
  classTransform : Option Value
  validate : Bool

/-- Embedding of the Session decorator (Session.js lines 9-22): the pushed
record has type session and parse false; required falls back to true and
validate to false exactly when the matching option is not explicitly
given; classTransform is options and options.transform, hence absent
whenever options is. -/
def Session (options : Option SessionDecoratorOptions) (methodName : String)
    (index : Nat) : ParamMetadataArgs :=
  { type := "session"
    method := methodName
    index := index
    parse := false
    required := match options with
      | some o => match o.required with
        | some b => b
        | none => true
      | none => true
    classTransform := match options with
      | some o => o.transform
      | none => none
    validate := match options with
      | some o => match o.validate with
        | some b => b
        | none => false
      | none => false }

/-! ## prepareMiddlewares -/

/-- A use entry as registerAction collects them: the referenced middleware
is class-based (its prototype has a use method) or a plain middleware
function. -/
inductive UsedMiddleware where
  | classBased (id : Nat) : UsedMiddleware
  | plainFunction (id : Nat) : UsedMiddleware
deriving DecidableEq, Repr

structure UseMetadata where
  middleware : UsedMiddleware
  afterAction : Bool

/-- A prepared chain entry: the try/catch wrapper prepareMiddlewares
installs around a class-based middleware (routing a thrown error to
handleError with no action metadata), or the plain function pushed
untouched. -/
inductive PreparedMiddleware where
  | wrapped (id : Nat) : PreparedMiddleware
  | raw (id : Nat) : PreparedMiddleware
deriving DecidableEq, Repr

/-- Embedding of KoaDriver.prepareMiddlewares (lines 323-347): iterate the
uses in order, pushing the wrapper for a class-based middleware and the
bare function otherwise. -/
def prepareMiddlewares (uses : List UseMetadata) : List PreparedMiddleware :=
  uses.foldl (fun acc use =>
    match use.middleware with
    | UsedMiddleware.classBased i => acc ++ [PreparedMiddleware.wrapped i]
    | UsedMiddleware.plainFunction i => acc ++ [PreparedMiddleware.raw i]) []

/-- The per-use shape of the prepared list, proved below to characterize
prepareMiddlewares. -/
def prepareOne (use : UseMetadata) : PreparedMiddleware :=
  match use.middleware with
  | UsedMiddleware.classBased i => PreparedMiddleware.wrapped i
  | UsedMiddleware.plainFunction i => PreparedMiddleware.raw i

/-- What the body of middleware number id does on this request: finish
normally or throw an error. -/
def MiddlewareBehavior : Type := Nat → Except JsError Unit

/-- Outcome of running one prepared middleware: completion, an error
caught by the wrapper and routed to handleError, or an error escaping the
middleware and bypassing the error translator. -/
inductive MiddlewareOutcome where
  | completed : MiddlewareOutcome
  | errorRouted (e : JsError) : MiddlewareOutcome
  | errorEscaped (e : JsError) : MiddlewareOutcome
deriving DecidableEq, Repr

/-- Runs one prepared middleware: the wrapper catches a throw of the
underlying use method and returns via handleError; a raw function has no
such wrapper, so its throw escapes. -/
def runPreparedMiddleware (behavior : MiddlewareBehavior) :
    PreparedMiddleware → MiddlewareOutcome
  | PreparedMiddleware.wrapped i =>
      match behavior i with
      | Except.ok _ => MiddlewareOutcome.completed
      | Except.error e => MiddlewareOutcome.errorRouted e
  | PreparedMiddleware.raw i =>
      match behavior i with
      | Except.ok _ => MiddlewareOutcome.completed
      | Except.error e => MiddlewareOutcome.errorEscaped e

/-! ## Sample request-time values used by concrete instantiations -/

/-- An empty uploaded-files request object. -/
def sampleCreq : RequestObj :=
  { body := Value.obj [], headers := Value.obj [], file := Value.undef,
    files := Value.undef }

/-- Empty well-formed action options: every container an empty object. -/
def sampleOptions : ActionOptions :=
  mkOptions [] [] [] [] [] [] [] sampleCreq

/-- Action options carrying a raw cookie header on both header views. -/
def cookieOptions : ActionOptions :=
  mkOptions [] [] [] [] [("cookie", Value.str "a=1; b=2")] []
    [("cookie", Value.str "a=1; b=2")] sampleCreq

/-- A response in its untouched request-start state. -/
def sampleResp : ResponseState :=
  { headersSet := [], body := ResponseBody.unset, status := Value.num 404 }

/-- Action metadata configuring nothing: no redirect, no render, no
result codes, no success code, no headers. -/
def plainActionMeta : ActionResponseMeta :=
  { headers := [], isJsonTyped := true, redirect := Value.undef,
    renderedTemplate := Value.undef, undefinedResultCode := Value.undef,
    nullResultCode := Value.undef, successHttpCode := Value.undef }

/-! ## Theorems -/

/-- C8: every invocation of the Session decorator records a parameter
descriptor of type session with parse false unconditionally; required
defaults to true and validate to false, each overridden exactly when the
matching option is explicitly provided; classTransform is the supplied
transform option (absent when the options object itself is absent). -/
theorem Session_records_descriptor (options : Option SessionDecoratorOptions)
    (methodName : String) (index : Nat) :
    (Session options methodName index).type = "session" ∧
    (Session options methodName index).parse = false ∧
    (Session options methodName index).required
      = (options.bind SessionDecoratorOptions.required).getD true ∧
    (Session options methodName index).validate
      = (options.bind SessionDecoratorOptions.validate).getD false ∧
    (Session options methodName index).classTransform
      = options.bind SessionDecoratorOptions.transform ∧
    (Session options methodName index).method = methodName ∧
    (Session options methodName index).index = index := by
  cases options with
  | none => simp [Session, Option.bind]
  | some o =>
    cases h1 : o.required <;> cases h2 : o.validate <;>
      simp [Session, Option.bind, h1, h2]

/-- C10: with the dispatch flag already set, the route guard returns
without invoking its continuation and without mutating the state: the
rest of the chain, whatever it holds, never runs and the dispatch state
comes back unchanged. -/
theorem routeGuard_noop_when_started (rest : List ChainMiddleware)
    (s : DispatchState) (h : s.routingControllersStarted = true) :
    runChain (ChainMiddleware.guard :: rest) s = s := by
  simp [runChain, h]

theorem routeGuard_noop_when_started_witness :
    runChain (ChainMiddleware.guard :: [ChainMiddleware.actionHandler 7])
      { routingControllersStarted := true, flagWrites := 1, executedActions := [] }
      = { routingControllersStarted := true, flagWrites := 1, executedActions := [] } :=
  routeGuard_noop_when_started [ChainMiddleware.actionHandler 7]
    { routingControllersStarted := true, flagWrites := 1, executedActions := [] } rfl

/-- C6: for every request to an authorization-guarded action with no
authorization checker configured, the middleware throws
AuthorizationCheckerNotDefinedError (escaping rather than being routed)
and never invokes next, so the action handler does not run and access is
never silently allowed. -/
theorem authorizationChecker_missing_throws (authorizedRoles : List String) :
    authorizationMiddleware none authorizedRoles
      = AuthOutcome.thrown DriverError.authorizationCheckerNotDefined ∧
    authorizationMiddleware none authorizedRoles ≠ AuthOutcome.proceeded := by
  refine ⟨rfl, ?_⟩
  intro h
  simp [authorizationMiddleware] at h

theorem authorizationChecker_missing_throws_witness :
    authorizationMiddleware none ["admin"]
      = AuthOutcome.thrown DriverError.authorizationCheckerNotDefined :=
  (authorizationChecker_missing_throws ["admin"]).1

/-- C3: when the configured authorization checker yields false for a
guarded action, next is not invoked (the action handler does not run) and
an error is routed to handleError: AuthorizationRequiredError when the
required-roles list is empty, AccessDeniedError when it is not. -/
theorem authorizationDenied_routes_error
    (check : List String → Except String Bool) (authorizedRoles : List String)
    (h : check authorizedRoles = Except.ok false) :
    (authorizedRoles = [] →
      authorizationMiddleware (some check) authorizedRoles
        = AuthOutcome.routedToErrorHandler DriverError.authorizationRequired) ∧
    (authorizedRoles ≠ [] →
      authorizationMiddleware (some check) authorizedRoles
        = AuthOutcome.routedToErrorHandler DriverError.accessDenied) ∧
    authorizationMiddleware (some check) authorizedRoles ≠ AuthOutcome.proceeded := by
  refine ⟨?_, ?_, ?_⟩
  · intro he
    subst he
    simp [authorizationMiddleware, h]
  · intro hne
    have hl : authorizedRoles.length ≠ 0 := by
      simpa [List.length_eq_zero] using hne
    simp [authorizationMiddleware, h, hl]
  · intro hp
    simp only [authorizationMiddleware, h] at hp
    split at hp <;> simp_all

theorem authorizationDenied_routes_error_witness :
    authorizationMiddleware (some (fun _ => Except.ok false)) ["admin"]
      = AuthOutcome.routedToErrorHandler DriverError.accessDenied :=
  (authorizationDenied_routes_error (fun _ => Except.ok false) ["admin"] rfl).2.1
    (by decide)

/-- Helper: the forEach-push loop of prepareMiddlewares, started from any
accumulator, appends the per-use shapes in order. -/
theorem prepareMiddlewares_foldl (uses : List UseMetadata)
    (acc : List PreparedMiddleware) :
    uses.foldl (fun a use =>
      match use.middleware with
      | UsedMiddleware.classBased i => a ++ [PreparedMiddleware.wrapped i]
      | UsedMiddleware.plainFunction i => a ++ [PreparedMiddleware.raw i]) acc
      = acc ++ uses.map prepareOne := by
  induction uses generalizing acc with
  | nil => simp
  | cons u rest ih =>
    cases hm : u.middleware <;>
      simp [List.foldl, prepareOne, hm, ih]

/-- C9: prepareMiddlewares returns one middleware per use in the order
given; a class-based use becomes the try/catch wrapper whose thrown
errors are routed to handleError, while a plain middleware function is
pushed unmodified, so an error it throws escapes and bypasses the error
translator. -/
theorem prepareMiddlewares_wraps_only_classBased (uses : List UseMetadata)
    (behavior : MiddlewareBehavior) :
    prepareMiddlewares uses = uses.map prepareOne ∧
    (prepareMiddlewares uses).length = uses.length ∧
    (∀ i e, behavior i = Except.error e →
      runPreparedMiddleware behavior (PreparedMiddleware.wrapped i)
        = MiddlewareOutcome.errorRouted e ∧
      runPreparedMiddleware behavior (PreparedMiddleware.raw i)
        = MiddlewareOutcome.errorEscaped e) ∧
    (∀ i, behavior i = Except.ok () →
      runPreparedMiddleware behavior (PreparedMiddleware.wrapped i)
        = MiddlewareOutcome.completed ∧
      runPreparedMiddleware behavior (PreparedMiddleware.raw i)
        = MiddlewareOutcome.completed) := by
  have hmap : prepareMiddlewares uses = uses.map prepareOne :=
    prepareMiddlewares_foldl uses []
  refine ⟨hmap, by simp [hmap], ?_, ?_⟩
  · intro i e hb
    exact ⟨by simp [runPreparedMiddleware, hb], by simp [runPreparedMiddleware, hb]⟩
  · intro i hb
    exact ⟨by simp [runPreparedMiddleware, hb], by simp [runPreparedMiddleware, hb]⟩

theorem prepareMiddlewares_wraps_only_classBased_witness :
    runPreparedMiddleware (fun _ => Except.error (JsError.other "boom"))
      (PreparedMiddleware.raw 1)
      = MiddlewareOutcome.errorEscaped (JsError.other "boom") :=
  ((prepareMiddlewares_wraps_only_classBased []
      (fun _ => Except.error (JsError.other "boom"))).2.2.1 1
      (JsError.other "boom") rfl).2

/-- C4: handleError produces exactly one outcome, never both. Enabled, it
resolves after writing exactly one error response: the action headers
applied when an action is known, the body rendered as JSON exactly when
an action is known and json-typed and as text otherwise, the status taken
from a truthy HttpError code and 500 otherwise. Disabled, it rejects with
the error and leaves the response untouched. -/
theorem handleError_single_outcome (enabled : Bool) (error : JsError)
    (action : Option ActionResponseMeta) (resp : ResponseState) :
    (enabled = true →
      ∃ r : ResponseState,
        handleError enabled error action resp = HandleErrorOutcome.resolved r ∧
        r.headersSet = (match action with
                        | some a => resp.headersSet ++ a.headers
                        | none => resp.headersSet) ∧
        r.body = (match action with
                  | some a =>
                      if a.isJsonTyped then ResponseBody.jsonErrorOf error
                      else ResponseBody.textErrorOf error
                  | none => ResponseBody.textErrorOf error) ∧
        r.status = (match error with
                    | JsError.httpError code _ =>
                        if code ≠ 0 then Value.num code else Value.num 500
                    | JsError.other _ => Value.num 500)) ∧
    (enabled = false →
      handleError enabled error action resp
        = HandleErrorOutcome.rejected error resp) := by
  constructor
  · intro he
    subst he
    refine ⟨_, rfl, ?_, ?_, ?_⟩ <;>
      cases action <;>
        cases error <;>
          simp only [handleError, applyActionHeaders, if_true] <;>
            (repeat' split) <;>
              simp_all [applyActionHeaders]
  · intro he
    subst he
    rfl

theorem handleError_single_outcome_witness :
    handleError false (JsError.other "boom") none sampleResp
      = HandleErrorOutcome.rejected (JsError.other "boom") sampleResp :=
  (handleError_single_outcome false (JsError.other "boom") none sampleResp).2 rfl

/-- Helper: a falsy value is not a Function (Functions are truthy). -/
theorem not_truthy_not_function (v : Value) (h : v.truthy = false) :
    v.isFunction = false := by
  cases v <;> simp_all [Value.truthy, Value.isFunction]

/-- C5: for a non-redirect, non-render action, a handler result of
undefined with no configured undefined-result code makes handleSuccess
throw NotFoundError, and a handler result of null with no null-result
code and no configured success code makes it set the response body to
null and the status to 204, apply the action headers and invoke next. -/
theorem handleSuccess_undefined_null
    (classTransformer : Option (List (String × Value) → List (String × Value)))
    (a : ActionResponseMeta) (resp : ResponseState)
    (hredir : a.redirect.truthy = false)
    (hrender : a.renderedTemplate.truthy = false) :
    (a.undefinedResultCode.truthy = false →
      handleSuccess classTransformer a (ActionResult.value Value.undef) resp
        = SuccessOutcome.thrown ThrownResult.notFound) ∧
    (a.nullResultCode.truthy = false → a.successHttpCode.truthy = false →
      handleSuccess classTransformer a (ActionResult.value Value.null) resp
        = SuccessOutcome.nextCalled
            (applyActionHeaders
              { resp with body := ResponseBody.nullBody, status := Value.num 204 }
              a.headers)
            none) := by
  constructor
  · intro hu
    have hf := not_truthy_not_function _ hu
    simp [handleSuccess, transformResult, hredir, hrender, hu, hf]
  · intro hn hs
    have hf := not_truthy_not_function _ hn
    simp [handleSuccess, transformResult, hredir, hrender, hn, hs, hf,
          ResponseBody.isNullBody, applyActionHeaders]

theorem handleSuccess_undefined_null_witness :
    handleSuccess none plainActionMeta (ActionResult.value Value.undef) sampleResp
      = SuccessOutcome.thrown ThrownResult.notFound :=
  (handleSuccess_undefined_null none plainActionMeta sampleResp rfl rfl).1 rfl

/-- Helper: plain middlewares leave the dispatch state untouched, so a
run through a plain prefix either reaches the rest of the list with the
state unchanged or stops with the state unchanged. -/
theorem runChain_skips_plain (ms l : List ChainMiddleware) (s : DispatchState)
    (h : ∀ m ∈ ms, isPlainMiddleware m = true) :
    runChain (ms ++ l) s = runChain l s ∨ runChain (ms ++ l) s = s := by
  induction ms with
  | nil => left; rfl
  | cons m rest ih =>
    have hm : isPlainMiddleware m = true := h m (List.mem_cons_self m rest)
    have hrest : ∀ m2 ∈ rest, isPlainMiddleware m2 = true :=
      fun m2 hm2 => h m2 (List.mem_cons_of_mem m hm2)
    cases m with
    | guard => simp [isPlainMiddleware] at hm
    | actionHandler i => simp [isPlainMiddleware] at hm
    | callsNext i => simpa [runChain] using ih hrest
    | stops i => right; rfl

/-- Helper: once the flag is set, the composed stacks of the remaining
matched routes run to nothing, the head guard of the first remaining
stack returning at once. -/
theorem runChain_stacks_noop (rs : List RegisteredRoute) (s : DispatchState)
    (h : s.routingControllersStarted = true) :
    runChain ((rs.map routeStack).flatten) s = s := by
  cases rs with
  | nil => rfl
  | cons r rest =>
    show runChain (routeStack r ++ ((rest.map routeStack).flatten)) s = s
    simp [routeStack, List.cons_append, runChain, h]

/-- C1: when any number of registered routes match one request, the
composed dispatch executes the action handler of at most one of them and
writes the routingControllersStarted flag exactly once; and in every
registered stack the route guard sits before every other middleware. The
hypothesis says only that the middlewares around each route handler are
ordinary ones: none of them is itself the guard or an action handler. -/
theorem atMostOneActionPerRequest (rs : List RegisteredRoute)
    (hplain : ∀ r ∈ rs,
      (∀ m ∈ r.beforeMiddlewares, isPlainMiddleware m = true) ∧
      (∀ m ∈ r.afterMiddlewares, isPlainMiddleware m = true))
    (hne : rs ≠ []) :
    (dispatchMatched rs).executedActions.length ≤ 1 ∧
    (dispatchMatched rs).flagWrites = 1 ∧
    ∀ r ∈ rs, (routeStack r).head? = some ChainMiddleware.guard := by
  cases rs with
  | nil => exact absurd rfl hne
  | cons r rest =>
    have hb := (hplain r (List.mem_cons_self r rest)).1
    have ha := (hplain r (List.mem_cons_self r rest)).2
    have hstart : dispatchMatched (r :: rest)
        = runChain (r.beforeMiddlewares ++
            (ChainMiddleware.actionHandler r.actionId ::
              (r.afterMiddlewares ++ ((rest.map routeStack).flatten))))
            { routingControllersStarted := true, flagWrites := 1,
              executedActions := [] } := by
      simp [dispatchMatched, routeStack, List.cons_append, runChain,
            initialDispatchState, List.append_assoc]
    rcases runChain_skips_plain r.beforeMiddlewares
        (ChainMiddleware.actionHandler r.actionId ::
          (r.afterMiddlewares ++ ((rest.map routeStack).flatten)))
        { routingControllersStarted := true, flagWrites := 1,
          executedActions := [] } hb with h1 | h1
    · have hstep : runChain
          (ChainMiddleware.actionHandler r.actionId ::
            (r.afterMiddlewares ++ ((rest.map routeStack).flatten)))
          { routingControllersStarted := true, flagWrites := 1,
            executedActions := [] }
          = runChain (r.afterMiddlewares ++ ((rest.map routeStack).flatten))
              { routingControllersStarted := true, flagWrites := 1,
                executedActions := [r.actionId] } := by
        simp [runChain]
      rcases runChain_skips_plain r.afterMiddlewares
          ((rest.map routeStack).flatten)
          { routingControllersStarted := true, flagWrites := 1,
            executedActions := [r.actionId] } ha with h2 | h2
      · have h3 := runChain_stacks_noop rest
          { routingControllersStarted := true, flagWrites := 1,
            executedActions := [r.actionId] } rfl
        rw [hstart, h1, hstep, h2, h3]
        exact ⟨by simp, rfl, fun r2 _ => rfl⟩
      · rw [hstart, h1, hstep, h2]
        exact ⟨by simp, rfl, fun r2 _ => rfl⟩
    · rw [hstart, h1]
      exact ⟨by simp, rfl, fun r2 _ => rfl⟩

/-- C2: on a well-formed request context (the containers the koa stack
provides are objects, the raw cookie header absent or a string),
getParamFromRequest returns the documented source value for every
recognized descriptor kind: the whole parsed body for body, its named
field for body-param, the named and the whole path parameters, session
and its named field, the whole or named state bag, named and whole query
values, the uploaded file and files, the named header read
case-insensitively, the whole request headers, and the named or all
cookies parsed on demand from the raw cookie header; an absent cookie
header yields undefined for cookie and the empty object for cookies; and
extraction never throws for any recognized kind. -/
theorem getParamFromRequest_kind_table
    (cp cs st q ch rb rh : List (String × Value)) (creq : RequestObj)
    (p : ParamDescriptor)
    (hch : lookupField ch "cookie" = Value.undef ∨
           ∃ s, lookupField ch "cookie" = Value.str s)
    (hrh : lookupField rh "cookie" = Value.undef ∨
           ∃ s, lookupField rh "cookie" = Value.str s) :
    (p.type = "body" →
      getParamFromRequest (mkOptions cp cs st q ch rb rh creq) p
        = Except.ok (Value.obj rb)) ∧
    (p.type = "body-param" →
      getParamFromRequest (mkOptions cp cs st q ch rb rh creq) p
        = Except.ok (lookupField rb p.name)) ∧
    (p.type = "param" →
      getParamFromRequest (mkOptions cp cs st q ch rb rh creq) p
        = Except.ok (lookupField cp p.name)) ∧
    (p.type = "params" →
      getParamFromRequest (mkOptions cp cs st q ch rb rh creq) p
        = Except.ok (Value.obj cp)) ∧
    (p.type = "session" →
      getParamFromRequest (mkOptions cp cs st q ch rb rh creq) p
        = Except.ok (Value.obj cs)) ∧
    (p.type = "session-param" →
      getParamFromRequest (mkOptions cp cs st q ch rb rh creq) p
        = Except.ok (lookupField cs p.name)) ∧
    (p.type = "state" → p.name ≠ "" →
      getParamFromRequest (mkOptions cp cs st q ch rb rh creq) p
        = Except.ok (lookupField st p.name)) ∧
    (p.type = "state" → p.name = "" →
      getParamFromRequest (mkOptions cp cs st q ch rb rh creq) p
        = Except.ok (Value.obj st)) ∧
    (p.type = "query" →
      getParamFromRequest (mkOptions cp cs st q ch rb rh creq) p
        = Except.ok (lookupField q p.name)) ∧
    (p.type = "queries" →
      getParamFromRequest (mkOptions cp cs st q ch rb rh creq) p
        = Except.ok (Value.obj q)) ∧
    (p.type = "file" →
      getParamFromRequest (mkOptions cp cs st q ch rb rh creq) p
        = Except.ok creq.file) ∧
    (p.type = "files" →
      getParamFromRequest (mkOptions cp cs st q ch rb rh creq) p
        = Except.ok creq.files) ∧
    (p.type = "header" →
      getParamFromRequest (mkOptions cp cs st q ch rb rh creq) p
        = Except.ok (lookupField ch p.name.toLower)) ∧
    (p.type = "headers" →
      getParamFromRequest (mkOptions cp cs st q ch rb rh creq) p
        = Except.ok (Value.obj rh)) ∧
    (p.type = "cookie" → lookupField ch "cookie" = Value.undef →
      getParamFromRequest (mkOptions cp cs st q ch rb rh creq) p
        = Except.ok Value.undef) ∧
    (p.type = "cookie" → ∀ s, lookupField ch "cookie" = Value.str s → s ≠ "" →
      getParamFromRequest (mkOptions cp cs st q ch rb rh creq) p
        = Except.ok (lookupField (cookieParse s) p.name)) ∧
    (p.type = "cookies" → lookupField rh "cookie" = Value.undef →
      getParamFromRequest (mkOptions cp cs st q ch rb rh creq) p
        = Except.ok (Value.obj [])) ∧
    (p.type = "cookies" → ∀ s, lookupField rh "cookie" = Value.str s → s ≠ "" →
      getParamFromRequest (mkOptions cp cs st q ch rb rh creq) p
        = Except.ok (Value.obj (cookieParse s))) ∧
    (p.type ∈ recognizedKinds →
      ∃ v, getParamFromRequest (mkOptions cp cs st q ch rb rh creq) p
        = Except.ok v) := by
  obtain ⟨t, n⟩ := p
  refine ⟨?_, ?_, ?_, ?_, ?_, ?_, ?_, ?_, ?_, ?_, ?_, ?_, ?_, ?_, ?_, ?_, ?_,
          ?_, ?_⟩
  · intro ht; cases ht; rfl
  · intro ht; cases ht; rfl
  · intro ht; cases ht; rfl
  · intro ht; cases ht; rfl
  · intro ht; cases ht; rfl
  · intro ht; cases ht; rfl
  · intro ht hn; cases ht
    simp [getParamFromRequest, mkOptions, Value.getProp, hn]
  · intro ht hn; cases ht; cases hn; rfl
  · intro ht; cases ht; rfl
  · intro ht; cases ht; rfl
  · intro ht; cases ht; rfl
  · intro ht; cases ht; rfl
  · intro ht; cases ht; rfl
  · intro ht; cases ht; rfl
  · intro ht hck; cases ht
    simp [getParamFromRequest, mkOptions, Value.getProp, hck, Value.truthy]
  · intro ht s hs hsne; cases ht
    simp [getParamFromRequest, mkOptions, Value.getProp, hs, Value.truthy, hsne]
  · intro ht hck; cases ht
    simp [getParamFromRequest, mkOptions, Value.getProp, hck, Value.truthy]
  · intro ht s hs hsne; cases ht
    simp [getParamFromRequest, mkOptions, Value.getProp, hs, Value.truthy, hsne]
  · intro hmem
    simp only [recognizedKinds, List.mem_cons, List.not_mem_nil, or_false] at hmem
    rcases hmem with h|h|h|h|h|h|h|h|h|h|h|h|h|h|h <;> cases h
    · exact ⟨_, rfl⟩
    · exact ⟨_, rfl⟩
    · exact ⟨_, rfl⟩
    · exact ⟨_, rfl⟩
    · exact ⟨_, rfl⟩
    · exact ⟨_, rfl⟩
    · -- state: both branches of the name check succeed
      simp only [getParamFromRequest, mkOptions]
      split
      · exact ⟨_, rfl⟩
      · exact ⟨_, rfl⟩
    · exact ⟨_, rfl⟩
    · exact ⟨_, rfl⟩
    · exact ⟨_, rfl⟩
    · exact ⟨_, rfl⟩
    · exact ⟨_, rfl⟩
    · exact ⟨_, rfl⟩
    · -- cookie: absent, empty or parsed, never a throw
      rcases hch with hck | ⟨s, hck⟩
      · exact ⟨Value.undef,
          by simp [getParamFromRequest, mkOptions, Value.getProp, hck,
                   Value.truthy]⟩
      · by_cases hs : s = ""
        · cases hs
          exact ⟨Value.undef,
            by simp [getParamFromRequest, mkOptions, Value.getProp, hck,
                     Value.truthy]⟩
        · exact ⟨lookupField (cookieParse s) n,
            by simp [getParamFromRequest, mkOptions, Value.getProp, hck,
                     Value.truthy, hs]⟩
    · -- cookies: absent, empty or parsed, never a throw
      rcases hrh with hck | ⟨s, hck⟩
      · exact ⟨Value.obj [],
          by simp [getParamFromRequest, mkOptions, Value.getProp, hck,
                   Value.truthy]⟩
      · by_cases hs : s = ""
        · cases hs
          exact ⟨Value.obj [],
            by simp [getParamFromRequest, mkOptions, Value.getProp, hck,
                     Value.truthy]⟩
        · exact ⟨Value.obj (cookieParse s),
            by simp [getParamFromRequest, mkOptions, Value.getProp, hck,
                     Value.truthy, hs]⟩

theorem getParamFromRequest_kind_table_witness :
    getParamFromRequest cookieOptions { type := "cookie", name := "b" }
      = Except.ok (Value.str "2") := by
  have h := (getParamFromRequest_kind_table [] [] [] []
      [("cookie", Value.str "a=1; b=2")] [] [("cookie", Value.str "a=1; b=2")]
      sampleCreq { type := "cookie", name := "b" }
      (Or.inr ⟨"a=1; b=2", rfl⟩)
      (Or.inr ⟨"a=1; b=2", rfl⟩)).2.2.2.2.2.2.2.2.2.2.2.2.2.2.2.1
      rfl "a=1; b=2" rfl (by decide)
  exact h

/-- C7 counterexample: an unrecognized descriptor kind does not fail fast:
the switch falls through and getParamFromRequest silently returns the
value undefined on a concrete request, raising nothing. -/
theorem unknownKind_silently_undefined_cex :
    getParamFromRequest sampleOptions { type := "bogus-kind", name := "x" }
      = Except.ok Value.undef := rfl

/-- C7 amended: for valid descriptors the unrecognized-kind branch is
unreachable (each recognized kind takes exactly one case), but a
descriptor with an unrecognized kind is not a runtime failure: the switch
falls through, the JavaScript function silently returning undefined for
every request context rather than throwing. -/
theorem unknownKind_returns_undefined (o : ActionOptions) (p : ParamDescriptor)
    (h : p.type ∉ recognizedKinds) :
    getParamFromRequest o p = Except.ok Value.undef := by
  obtain ⟨t, n⟩ := p
  simp only [recognizedKinds, List.mem_cons, List.not_mem_nil, or_false] at h
  push_neg at h
  obtain ⟨h1, h2, h3, h4, h5, h6, h7, h8, h9, h10, h11, h12, h13, h14, h15⟩ := h
  simp only [getParamFromRequest]

theorem unknownKind_returns_undefined_witness :
    getParamFromRequest sampleOptions { type := "an-unknown-kind", name := "" }
      = Except.ok Value.undef :=
  unknownKind_returns_undefined sampleOptions
    { type := "an-unknown-kind", name := "" } (by decide)

theorem atMostOneActionPerRequest_witness :
    (dispatchMatched
        [{ actionId := 1, beforeMiddlewares := [ChainMiddleware.callsNext 10],
           afterMiddlewares := [] },
         { actionId := 2, beforeMiddlewares := [],
           afterMiddlewares := [] }]).executedActions.length ≤ 1 ∧
    (dispatchMatched
        [{ actionId := 1, beforeMiddlewares := [ChainMiddleware.callsNext 10],
           afterMiddlewares := [] },
         { actionId := 2, beforeMiddlewares := [],
           afterMiddlewares := [] }]).flagWrites = 1 ∧
    ∀ r ∈ [({ actionId := 1, beforeMiddlewares := [ChainMiddleware.callsNext 10],
              afterMiddlewares := [] } : RegisteredRoute),
           { actionId := 2, beforeMiddlewares := [],
             afterMiddlewares := [] }],
      (routeStack r).head? = some ChainMiddleware.guard :=
  atMostOneActionPerRequest
    [{ actionId := 1, beforeMiddlewares := [ChainMiddleware.callsNext 10],
       afterMiddlewares := [] },
     { actionId := 2, beforeMiddlewares := [], afterMiddlewares := [] }]
    (by decide) (by decide)

end RoutingControllers
